import Mathlib

/-!
Verification of the Anthropic client translation core
(`src/semantic-router/pkg/anthropic/client.go`).

The Go code is shallowly embedded: each Go struct used by `client.go`
becomes a Lean structure (only the fields the code reads), Go union
types with mutually exclusive pointer fields become inductives, Go
`float64` values become rationals (the code only compares them with `> 0`
and copies them), and the imperative accumulation loops become `List.foldl`
over an explicit accumulator.
-/

namespace SemanticRouter

/-- The SDK option type `param.Opt`: a payload value plus a validity flag.
`openai.Float x` yields `⟨x, true⟩`; the Go zero value is `⟨0, false⟩`.
`client.go` only ever reads `.Value`, never the validity flag. -/
structure Opt (α : Type) where
  value : α
  valid : Bool
deriving DecidableEq

/-- `openai.ChatCompletionContentPartTextParam`: a text content part
(its `Type` field is constantly the literal text tag and is omitted). -/
structure ChatCompletionContentPartTextParam where
  text : String
deriving DecidableEq

/-- `openai.ChatCompletionContentPartUnion` for user/assistant content:
`OfText` points at a text part; the remaining pointer fields
(image, audio, file) are the non-text parts, which `client.go` never reads. -/
inductive ChatCompletionContentPartUnion where
  | ofText (t : ChatCompletionContentPartTextParam)
  | other
deriving DecidableEq

/-- `openai.ChatCompletionSystemMessageParamContentUnion`: either a single
string or an ordered sequence of text parts. -/
structure SystemContentUnion where
  ofString : Opt String
  ofArrayOfContentParts : List ChatCompletionContentPartTextParam
deriving DecidableEq

/-- `openai.ChatCompletionUserMessageParamContentUnion`. -/
structure UserContentUnion where
  ofString : Opt String
  ofArrayOfContentParts : List ChatCompletionContentPartUnion
deriving DecidableEq

/-- `openai.ChatCompletionAssistantMessageParamContentUnion` (the fields
`client.go` reads have the same shape as the user variant). -/
structure AssistantContentUnion where
  ofString : Opt String
  ofArrayOfContentParts : List ChatCompletionContentPartUnion
deriving DecidableEq

/-- `openai.ChatCompletionSystemMessageParam`. -/
structure ChatCompletionSystemMessageParam where
  content : SystemContentUnion
deriving DecidableEq

/-- `openai.ChatCompletionUserMessageParam`. -/
structure ChatCompletionUserMessageParam where
  content : UserContentUnion
deriving DecidableEq

/-- `openai.ChatCompletionAssistantMessageParam`. -/
structure ChatCompletionAssistantMessageParam where
  content : AssistantContentUnion
deriving DecidableEq

/-- `openai.ChatCompletionMessageParamUnion`: the message union. Besides
the three pointer fields the `switch` in `toAnthropicRequest` inspects
(`OfSystem`, `OfUser`, `OfAssistant`), the Go union carries further role
pointers (`OfDeveloper`, `OfTool`, `OfFunction`) that fall through the
`switch` untouched; `other` covers those. -/
inductive ChatCompletionMessageParamUnion where
  | ofSystem (m : ChatCompletionSystemMessageParam)
  | ofUser (m : ChatCompletionUserMessageParam)
  | ofAssistant (m : ChatCompletionAssistantMessageParam)
  | other
deriving DecidableEq

/-- `openai.ChatCompletionNewParamsStopUnion`. -/
structure StopUnion where
  ofStringArray : List String
  ofString : Opt String
deriving DecidableEq

/-- `openai.ChatCompletionNewParams`, restricted to the fields `client.go`
reads. Go `float64` parameters are modelled as rationals. The `stream`
field is the boolean streaming flag of the spec's ChatRequest (§3); it is
checked by the router layer, not by `toAnthropicRequest`. -/
structure ChatCompletionNewParams where
  model : String
  messages : List ChatCompletionMessageParamUnion
  maxTokens : Opt Int
  maxCompletionTokens : Opt Int
  temperature : Opt ℚ
  topP : Opt ℚ
  stop : StopUnion
  stream : Bool
deriving DecidableEq

/-- `anthropic.TextBlockParam` (only the `Text` field is set by the code). -/
structure TextBlockParam where
  text : String
deriving DecidableEq

/-- Role of an outbound Anthropic message: the Anthropic `MessageParam`
role enum has exactly the two values `user` and `assistant`. -/
inductive MessageParamRole where
  | user
  | assistant
deriving DecidableEq

/-- `anthropic.MessageParam`. The code only ever builds the content list
via `anthropic.NewTextBlock`, so content is modelled as the list of the
text blocks' texts. -/
structure MessageParam where
  role : MessageParamRole
  content : List String
deriving DecidableEq

/-- `anthropic.MessageNewParams`, the backend request. `System` and
`StopSequences` are Go slices whose zero value is nil (here `[]`);
`Temperature`/`TopP` are SDK optionals, `none` when never assigned. -/
structure MessageNewParams where
  model : String
  messages : List MessageParam
  maxTokens : Int
  system : List TextBlockParam
  temperature : Option ℚ
  topP : Option ℚ
  stopSequences : List String
deriving DecidableEq

/-- `DefaultMaxTokens int64 = 4096`. -/
def DefaultMaxTokens : Int := 4096

/-- `extractSystemContent`: return the single string if non-empty,
otherwise collect the parts whose `Text` is non-empty (an imperative
append loop, embedded as a `foldl`) and join them with a single space. -/
def extractSystemContent (msg : ChatCompletionSystemMessageParam) : String :=
  if msg.content.ofString.value ≠ "" then
    msg.content.ofString.value
  else
    " ".intercalate (msg.content.ofArrayOfContentParts.foldl
      (fun parts part => if part.text ≠ "" then parts ++ [part.text] else parts) [])

/-- `extractUserContent`: return the single string if non-empty, otherwise
collect the texts of the parts whose `OfText` pointer is non-nil and join
them with a single space. -/
def extractUserContent (msg : ChatCompletionUserMessageParam) : String :=
  if msg.content.ofString.value ≠ "" then
    msg.content.ofString.value
  else
    " ".intercalate (msg.content.ofArrayOfContentParts.foldl
      (fun parts part =>
        match part with
        | .ofText t => parts ++ [t.text]
        | .other => parts) [])

/-- `extractAssistantContent`: same shape as `extractUserContent`. -/
def extractAssistantContent (msg : ChatCompletionAssistantMessageParam) : String :=
  if msg.content.ofString.value ≠ "" then
    msg.content.ofString.value
  else
    " ".intercalate (msg.content.ofArrayOfContentParts.foldl
      (fun parts part =>
        match part with
        | .ofText t => parts ++ [t.text]
        | .other => parts) [])

/-- One iteration of the message loop in `toAnthropicRequest`: the
accumulator is the pair (`messages` slice, `systemPrompt` variable). -/
def processMessage (acc : List MessageParam × String)
    (msg : ChatCompletionMessageParamUnion) : List MessageParam × String :=
  match msg with
  | .ofSystem m => (acc.1, extractSystemContent m)
  | .ofUser m => (acc.1 ++ [⟨.user, [extractUserContent m]⟩], acc.2)
  | .ofAssistant m => (acc.1 ++ [⟨.assistant, [extractAssistantContent m]⟩], acc.2)
  | .other => acc

/-- The message loop of `toAnthropicRequest`, started from the zero values
`var messages []anthropic.MessageParam` and `var systemPrompt string`. -/
def processMessages (msgs : List ChatCompletionMessageParamUnion) :
    List MessageParam × String :=
  msgs.foldl processMessage ([], "")

/-- `toAnthropicRequest`: convert the OpenAI request to Anthropic format. -/
def toAnthropicRequest (req : ChatCompletionNewParams) : MessageNewParams :=
  let acc := processMessages req.messages
  let maxTokens : Int :=
    if req.maxCompletionTokens.value > 0 then req.maxCompletionTokens.value
    else if req.maxTokens.value > 0 then req.maxTokens.value
    else DefaultMaxTokens
  { model := req.model
    messages := acc.1
    maxTokens := maxTokens
    system := if acc.2 ≠ "" then [⟨acc.2⟩] else []
    temperature := if req.temperature.value > 0 then some req.temperature.value else none
    topP := if req.topP.value > 0 then some req.topP.value else none
    stopSequences :=
      if req.stop.ofStringArray.length > 0 then req.stop.ofStringArray
      else if req.stop.ofString.value ≠ "" then [req.stop.ofString.value]
      else [] }

/-- `anthropic.ContentBlockUnion`: a response content block, with its
type tag string and (for text blocks) its text. -/
structure ContentBlockUnion where
  type : String
  text : String
deriving DecidableEq

/-- `anthropic.Usage`: token-usage counters. -/
structure Usage where
  inputTokens : Int
  outputTokens : Int
deriving DecidableEq

/-- `anthropic.Message`, the backend response, restricted to the fields
`toOpenAIResponse` reads. `StopReason` is a string-typed enum in the SDK
(`end_turn`, `max_tokens`, `stop_sequence`, `tool_use`, ...). -/
structure AnthropicMessage where
  id : String
  content : List ContentBlockUnion
  stopReason : String
  usage : Usage
deriving DecidableEq

/-- `openAIMessage`. -/
structure OpenAIMessage where
  role : String
  content : String
deriving DecidableEq

/-- `openAIChoice`. -/
structure OpenAIChoice where
  index : Int
  message : OpenAIMessage
  finishReason : String
deriving DecidableEq

/-- `openAIUsage`. -/
structure OpenAIUsage where
  promptTokens : Int
  completionTokens : Int
  totalTokens : Int
deriving DecidableEq

/-- `openAIResponse`. -/
structure OpenAIResponse where
  id : String
  object : String
  created : Int
  model : String
  choices : List OpenAIChoice
  usage : OpenAIUsage
deriving DecidableEq

/-- `toOpenAIResponse`: convert the Anthropic response to OpenAI format.
The Go code stamps `Created` with `time.Now().Unix()`; that ambient
wall-clock read is surfaced here as the explicit argument `now`. -/
def toOpenAIResponse (resp : AnthropicMessage) (model : String) (now : Int) :
    OpenAIResponse :=
  let content := resp.content.foldl
    (fun acc block => if block.type == "text" then acc ++ block.text else acc) ""
  let finishReason :=
    match resp.stopReason with
    | "max_tokens" => "length"
    | "tool_use" => "tool_calls"
    | _ => "stop"
  { id := resp.id
    object := "chat.completion"
    created := now
    model := model
    choices := [⟨0, ⟨"assistant", content⟩, finishReason⟩]
    usage := ⟨resp.usage.inputTokens, resp.usage.outputTokens,
              resp.usage.inputTokens + resp.usage.outputTokens⟩ }

/-- The error taxonomy at the orchestration boundary. `anthropicAPIError`
is the wrap `fmt.Errorf("anthropic API error: %w", err)` in
`ChatCompletion`: it keeps the underlying backend error and tags it as
originating in the backend call. `streamingUnsupported` is the
router-level invalid-request error for `stream:true`
(type `invalid_request_error`, code 400). -/
inductive ChatError (ε : Type) where
  | streamingUnsupported
  | anthropicAPIError (underlying : ε)
deriving DecidableEq

/-- `ChatCompletion`: translate the request, invoke the backend once, and
translate the response. The backend session (`c.sdk.Messages.New` with
the ambient context) is the explicit oracle `backend`; the wall clock used
for the response timestamp is the explicit `now`. The second component of
the result counts backend invocations performed by the call: the Go body
has a single call site and no loop, so it is `1` on every path. On backend
error the wrapped error is returned and no response is produced. -/
def ChatCompletion {ε : Type}
    (backend : MessageNewParams → Except ε AnthropicMessage)
    (now : Int) (req : ChatCompletionNewParams) :
    Except (ChatError ε) OpenAIResponse × Nat :=
  let anthropicReq := toAnthropicRequest req
  match backend anthropicReq with
  | .error err => (.error (.anthropicAPIError err), 1)
  | .ok resp => (.ok (toOpenAIResponse resp req.model now), 1)

/-- Modelled from the spec: the router-level streaming gate is not part of
`client.go` (only the router layer outside the reviewed source checks the
flag). Per §4.4 and scenario 5, a request with the streaming flag set is
refused with the unsupported-feature error before the backend is
contacted; otherwise the call is delegated to `ChatCompletion`. -/
def routerChatCompletion {ε : Type}
    (backend : MessageNewParams → Except ε AnthropicMessage)
    (now : Int) (req : ChatCompletionNewParams) :
    Except (ChatError ε) OpenAIResponse × Nat :=
  if req.stream then (.error .streamingUnsupported, 0)
  else ChatCompletion backend now req

/-- Whether a message union holds a system-role message. -/
def isSystem : ChatCompletionMessageParamUnion → Bool
  | .ofSystem _ => true
  | _ => false

/-- Whether a message union holds a user- or assistant-role message. -/
def isUserOrAssistant : ChatCompletionMessageParamUnion → Bool
  | .ofUser _ => true
  | .ofAssistant _ => true
  | _ => false

/-- The system-role payload of a message union, if any. -/
def systemOf : ChatCompletionMessageParamUnion → Option ChatCompletionSystemMessageParam
  | .ofSystem m => some m
  | _ => none

/-- The last system-role message of a request's message list, if any. -/
def lastSystem? (msgs : List ChatCompletionMessageParamUnion) :
    Option ChatCompletionSystemMessageParam :=
  msgs.reverse.findSome? systemOf

/-- The system text carried by a backend request (the code puts at most one
text block in `system`; an absent field reads as the empty text). -/
def systemText (p : MessageNewParams) : String :=
  (p.system.headD ⟨""⟩).text

/-- The text of a user/assistant content part when it is text-typed. -/
def textOf : ChatCompletionContentPartUnion → Option String
  | .ofText t => some t.text
  | .other => none

theorem lastSystem?_cons (msg : ChatCompletionMessageParamUnion)
    (rest : List ChatCompletionMessageParamUnion) :
    lastSystem? (msg :: rest) = (lastSystem? rest).or (systemOf msg) := by
  have h1 : List.findSome? systemOf [msg] = systemOf msg := by
    rw [List.findSome?_cons]
    cases systemOf msg <;> simp
  simp [lastSystem?, List.reverse_cons, List.findSome?_append, h1]

theorem foldl_processMessage_snd (msgs : List ChatCompletionMessageParamUnion)
    (ms : List MessageParam) (s : String) :
    (List.foldl processMessage (ms, s) msgs).2 =
      (match lastSystem? msgs with
       | some m => extractSystemContent m
       | none => s) := by
  induction msgs generalizing ms s with
  | nil => simp [lastSystem?]
  | cons msg rest ih =>
    rw [List.foldl_cons, lastSystem?_cons]
    cases msg with
    | ofSystem m =>
      rw [show processMessage (ms, s) (.ofSystem m) = (ms, extractSystemContent m) from rfl]
      rw [ih]
      cases h : lastSystem? rest <;> simp [systemOf]
    | ofUser m =>
      rw [show processMessage (ms, s) (.ofUser m)
        = (ms ++ [⟨.user, [extractUserContent m]⟩], s) from rfl]
      rw [ih, show systemOf (.ofUser m) = none from rfl, Option.or_none]
    | ofAssistant m =>
      rw [show processMessage (ms, s) (.ofAssistant m)
        = (ms ++ [⟨.assistant, [extractAssistantContent m]⟩], s) from rfl]
      rw [ih, show systemOf (.ofAssistant m) = none from rfl, Option.or_none]
    | other =>
      rw [show processMessage (ms, s) .other = (ms, s) from rfl]
      rw [ih, show systemOf .other = none from rfl, Option.or_none]

theorem foldl_processMessage_length (msgs : List ChatCompletionMessageParamUnion)
    (ms : List MessageParam) (s : String) :
    (List.foldl processMessage (ms, s) msgs).1.length
      = ms.length + msgs.countP isUserOrAssistant := by
  induction msgs generalizing ms s with
  | nil => simp
  | cons msg rest ih =>
    rw [List.foldl_cons, List.countP_cons]
    cases msg <;> simp [processMessage, isUserOrAssistant, ih] <;> omega

theorem foldl_processMessage_roles (msgs : List ChatCompletionMessageParamUnion)
    (ms : List MessageParam) (s : String)
    (h : ∀ m ∈ ms, m.role = .user ∨ m.role = .assistant) :
    ∀ m ∈ (List.foldl processMessage (ms, s) msgs).1,
      m.role = .user ∨ m.role = .assistant := by
  induction msgs generalizing ms s with
  | nil => simpa using h
  | cons msg rest ih =>
    rw [List.foldl_cons]
    cases msg with
    | ofSystem m => exact ih _ _ h
    | ofUser m =>
      refine ih _ _ ?_
      intro x hx
      rcases List.mem_append.1 hx with h1 | h1
      · exact h x h1
      · rw [List.mem_singleton.1 h1]
        exact Or.inl rfl
    | ofAssistant m =>
      refine ih _ _ ?_
      intro x hx
      rcases List.mem_append.1 hx with h1 | h1
      · exact h x h1
      · rw [List.mem_singleton.1 h1]
        exact Or.inr rfl
    | other => exact ih _ _ h

theorem foldl_collect_nonempty_text (l : List ChatCompletionContentPartTextParam)
    (acc : List String) :
    l.foldl (fun parts part => if part.text ≠ "" then parts ++ [part.text] else parts) acc
      = acc ++ (l.filter (fun p => p.text != "")).map (fun p => p.text) := by
  induction l generalizing acc with
  | nil => simp
  | cons p rest ih =>
    rw [List.foldl_cons]
    by_cases h : p.text = ""
    · rw [if_neg (by simp [h]), ih, List.filter_cons, if_neg (by simp [h])]
    · rw [if_pos h, ih, List.filter_cons, if_pos (by simpa using h), List.map_cons]
      simp [List.append_assoc]

theorem foldl_collect_ofText (l : List ChatCompletionContentPartUnion)
    (acc : List String) :
    l.foldl (fun parts part =>
        match part with
        | .ofText t => parts ++ [t.text]
        | .other => parts) acc
      = acc ++ l.filterMap textOf := by
  induction l generalizing acc with
  | nil => simp
  | cons p rest ih =>
    cases p <;> simp [List.foldl_cons, textOf, ih, List.filterMap_cons]

theorem foldl_string_append (l : List String) (a : String) :
    l.foldl (fun x y => x ++ y) a = a ++ String.join l := by
  induction l generalizing a with
  | nil => simp [String.join]
  | cons s rest ih =>
    rw [List.foldl_cons, ih]
    rw [show String.join (s :: rest) = List.foldl (fun x y => x ++ y) ("" ++ s) rest from rfl]
    rw [ih ("" ++ s), String.empty_append, String.append_assoc]

theorem join_cons_string (s : String) (l : List String) :
    String.join (s :: l) = s ++ String.join l := by
  rw [show String.join (s :: l) = List.foldl (fun x y => x ++ y) ("" ++ s) l from rfl]
  rw [foldl_string_append, String.empty_append]

theorem foldl_content_blocks (blocks : List ContentBlockUnion) (acc : String) :
    blocks.foldl (fun a block => if block.type == "text" then a ++ block.text else a) acc
      = acc ++ String.join
          ((blocks.filter (fun b => b.type == "text")).map (fun b => b.text)) := by
  induction blocks generalizing acc with
  | nil => simp [String.join]
  | cons b rest ih =>
    rw [List.foldl_cons]
    by_cases h : b.type == "text"
    · simp only [h, if_true, List.filter_cons, ih]
      rw [List.map_cons, join_cons_string, String.append_assoc]
    · simp only [h, if_false, Bool.false_eq_true, ih, List.filter_cons]

/-! ### Concrete fixtures -/

/-- An unset stop union (Go zero value). -/
def noStop : StopUnion := ⟨[], ⟨"", false⟩⟩

/-- An unset optional integer (Go zero value of `param.Opt[int64]`). -/
def unsetInt : Opt Int := ⟨0, false⟩

/-- An unset optional float (Go zero value of `param.Opt[float64]`). -/
def unsetRat : Opt ℚ := ⟨0, false⟩

/-- A user message with single-string content. -/
def userMsg (s : String) : ChatCompletionMessageParamUnion :=
  .ofUser ⟨⟨⟨s, true⟩, []⟩⟩

/-- A system message with single-string content. -/
def sysMsgOf (s : String) : ChatCompletionSystemMessageParam := ⟨⟨⟨s, true⟩, []⟩⟩

/-- The request of the repository's basic-conversion test. -/
def reqBasic : ChatCompletionNewParams :=
  { model := "claude-sonnet-4-5"
    messages := [userMsg "Hello, world!"]
    maxTokens := unsetInt
    maxCompletionTokens := unsetInt
    temperature := unsetRat
    topP := unsetRat
    stop := noStop
    stream := false }

/-- A backend stub that always fails with a transport error. -/
def backendStub : MessageNewParams → Except String AnthropicMessage :=
  fun _ => .error "transport failure"

/-- `reqBasic` with the streaming flag set. -/
def reqStreaming : ChatCompletionNewParams := { reqBasic with stream := true }

/-- `reqBasic` with temperature explicitly supplied as 0.0. -/
def reqZeroTemp : ChatCompletionNewParams := { reqBasic with temperature := ⟨0, true⟩ }

/-- A request holding one system message and one other-role (e.g. tool)
message. -/
def reqSystemAndTool : ChatCompletionNewParams :=
  { reqBasic with messages := [.ofSystem (sysMsgOf "You are helpful."), .other] }

/-- The request of the repository's system-prompt test. -/
def reqScenario2 : ChatCompletionNewParams :=
  { reqBasic with
      messages := [.ofSystem (sysMsgOf "You are a helpful assistant."), userMsg "Hi"] }

/-- A system message whose content is structured parts, one of them with
empty text. -/
def sysPartsMsg : ChatCompletionSystemMessageParam := ⟨⟨⟨"", false⟩, [⟨"a"⟩, ⟨""⟩]⟩⟩

/-- A user message whose content is structured parts, one of them
non-text. -/
def userPartsMsg : ChatCompletionUserMessageParam :=
  ⟨⟨⟨"", false⟩, [.ofText ⟨"first"⟩, .other, .ofText ⟨"second"⟩]⟩⟩

/-- An assistant message whose content is structured parts. -/
def asstPartsMsg : ChatCompletionAssistantMessageParam :=
  ⟨⟨⟨"", false⟩, [.ofText ⟨"ok"⟩]⟩⟩

/-- The backend response of the repository's basic response test. -/
def respEndTurn : AnthropicMessage :=
  ⟨"msg_123", [⟨"text", "Hello! How can I help you?"⟩], "end_turn", ⟨10, 8⟩⟩

/-- A request with a non-empty system message later erased by an
empty-content system message. -/
def reqEraseSystem : ChatCompletionNewParams :=
  { reqBasic with
      messages := [.ofSystem (sysMsgOf "You are helpful."), userMsg "Hi",
                   .ofSystem (sysMsgOf "")] }

/-! ### Claims -/

/-- C1: a request whose streaming flag is true is refused with the
unsupported-feature error, the backend is never invoked (invocation count
0, result the same for every backend oracle), and the streaming error is a
different constructor from every wrapped backend-transport error. -/
theorem streaming_refused_before_backend {ε : Type}
    (backend : MessageNewParams → Except ε AnthropicMessage)
    (now : Int) (req : ChatCompletionNewParams) (h : req.stream = true) :
    routerChatCompletion backend now req = (.error .streamingUnsupported, 0)
      ∧ ∀ e : ε, (ChatError.streamingUnsupported : ChatError ε) ≠ .anthropicAPIError e := by
  constructor
  · simp [routerChatCompletion, h]
  · intro e hcontra
    exact ChatError.noConfusion hcontra

/-- Witness for C1 at a concrete streaming request and backend stub. -/
theorem streaming_refused_before_backend_witness :
    routerChatCompletion backendStub 0 reqStreaming = (.error .streamingUnsupported, 0) :=
  (streaming_refused_before_backend backendStub 0 reqStreaming rfl).1

/-- C2, evaluated at the failing input: temperature is explicitly supplied
as 0.0 (validity flag set), yet the produced backend request carries no
temperature field, because `toAnthropicRequest` tests `Value > 0` instead
of the presence flag — contradicting the repository's own test
`TestToAnthropicRequest_WithZeroTemperature`. -/
theorem zero_temperature_dropped :
    reqZeroTemp.temperature = ⟨0, true⟩
      ∧ (toAnthropicRequest reqZeroTemp).temperature = none := by
  exact ⟨rfl, rfl⟩

/-- C3 fails as stated: this request contains one system message and one
further non-system (tool-role) message, yet the backend message sequence
is empty — an other-role message counts as a non-system input message but
produces no backend entry. -/
theorem user_assistant_count_counterexample :
    reqSystemAndTool.messages.countP isSystem = 1
      ∧ reqSystemAndTool.messages.countP (fun m => !(isSystem m)) = 1
      ∧ (toAnthropicRequest reqSystemAndTool).messages.length = 0 :=
  ⟨rfl, rfl, rfl⟩

/-- C3 amended: for every request containing a system-role message, the
backend system text equals the extracted content of the last system-role
message, every backend entry has role user or assistant (no system
entry), and the number of backend entries equals the number of user-role
plus assistant-role input messages (other-role messages are dropped). -/
theorem system_elevated_and_counts (req : ChatCompletionNewParams)
    (m : ChatCompletionSystemMessageParam)
    (h : lastSystem? req.messages = some m) :
    systemText (toAnthropicRequest req) = extractSystemContent m
      ∧ (∀ mp ∈ (toAnthropicRequest req).messages,
          mp.role = .user ∨ mp.role = .assistant)
      ∧ (toAnthropicRequest req).messages.length
          = req.messages.countP isUserOrAssistant := by
  have hsnd0 := foldl_processMessage_snd req.messages [] ""
  rw [h] at hsnd0
  have hsnd : (List.foldl processMessage ([], "") req.messages).2
      = extractSystemContent m := hsnd0
  refine ⟨?_, ?_, ?_⟩
  · have hsys : (toAnthropicRequest req).system
        = (if (List.foldl processMessage ([], "") req.messages).2 ≠ ""
           then [(⟨(List.foldl processMessage ([], "") req.messages).2⟩ : TextBlockParam)]
           else []) := rfl
    rw [systemText, hsys, hsnd]
    by_cases he : extractSystemContent m = "" <;> simp [he]
  · intro mp hmp
    exact foldl_processMessage_roles req.messages [] "" (by simp) mp hmp
  · have h3 := foldl_processMessage_length req.messages [] ""
    show (List.foldl processMessage ([], "") req.messages).1.length
        = req.messages.countP isUserOrAssistant
    rw [h3]
    simp

/-- Witness for C3's amended claim at the system-plus-user request of the
repository's tests. -/
theorem system_elevated_and_counts_witness :
    systemText (toAnthropicRequest reqScenario2)
        = extractSystemContent (sysMsgOf "You are a helpful assistant.")
      ∧ (toAnthropicRequest reqScenario2).messages.length
          = reqScenario2.messages.countP isUserOrAssistant :=
  ⟨(system_elevated_and_counts reqScenario2 (sysMsgOf "You are a helpful assistant.") rfl).1,
   (system_elevated_and_counts reqScenario2 (sysMsgOf "You are a helpful assistant.") rfl).2.2⟩

/-- C4: max_tokens resolution prefers a positive `max_completion_tokens`,
then a positive `max_tokens`, then the default 4096, and is always
positive. -/
theorem max_tokens_resolution (req : ChatCompletionNewParams) :
    (0 < req.maxCompletionTokens.value →
        (toAnthropicRequest req).maxTokens = req.maxCompletionTokens.value)
      ∧ (¬ 0 < req.maxCompletionTokens.value → 0 < req.maxTokens.value →
          (toAnthropicRequest req).maxTokens = req.maxTokens.value)
      ∧ (¬ 0 < req.maxCompletionTokens.value → ¬ 0 < req.maxTokens.value →
          (toAnthropicRequest req).maxTokens = 4096)
      ∧ 0 < (toAnthropicRequest req).maxTokens := by
  have hmt : (toAnthropicRequest req).maxTokens
      = (if req.maxCompletionTokens.value > 0 then req.maxCompletionTokens.value
         else if req.maxTokens.value > 0 then req.maxTokens.value
         else DefaultMaxTokens) := rfl
  refine ⟨fun h1 => by rw [hmt, if_pos h1],
          fun h1 h2 => by rw [hmt, if_neg h1, if_pos h2],
          fun h1 h2 => by rw [hmt, if_neg h1, if_neg h2]; rfl,
          ?_⟩
  rw [hmt]
  split_ifs with h1 h2
  · exact h1
  · exact h2
  · norm_num [DefaultMaxTokens]

/-- Witness for C4 at a request with both token fields unset. -/
theorem max_tokens_resolution_witness :
    (toAnthropicRequest reqBasic).maxTokens = 4096 :=
  (max_tokens_resolution reqBasic).2.2.1 (by decide) (by decide)

/-- C5 fails as stated for system messages: both structured parts of this
system message are text-typed (the Go element type is
`ChatCompletionContentPartTextParam`), so the claim predicts the join
"a ", but the extractor skips the empty-text part and returns "a". -/
theorem system_extraction_counterexample :
    extractSystemContent sysPartsMsg = "a"
      ∧ " ".intercalate (sysPartsMsg.content.ofArrayOfContentParts.map
          (fun p => p.text)) = "a "
      ∧ ("a" : String) ≠ "a " := by
  refine ⟨rfl, rfl, by decide⟩

/-- C5 amended: a non-empty single-string content is returned unchanged;
otherwise user/assistant extraction joins the texts of exactly the
text-typed parts with a single space, while system extraction joins only
the parts with non-empty text (empty-text parts are skipped); an absence
of content yields the empty string. -/
theorem content_extraction_amended (s : ChatCompletionSystemMessageParam)
    (u : ChatCompletionUserMessageParam) (a : ChatCompletionAssistantMessageParam) :
    (s.content.ofString.value ≠ "" → extractSystemContent s = s.content.ofString.value)
      ∧ (s.content.ofString.value = "" →
          extractSystemContent s
            = " ".intercalate ((s.content.ofArrayOfContentParts.filter
                (fun p => p.text != "")).map (fun p => p.text)))
      ∧ (u.content.ofString.value ≠ "" → extractUserContent u = u.content.ofString.value)
      ∧ (u.content.ofString.value = "" →
          extractUserContent u
            = " ".intercalate (u.content.ofArrayOfContentParts.filterMap textOf))
      ∧ (a.content.ofString.value ≠ "" →
          extractAssistantContent a = a.content.ofString.value)
      ∧ (a.content.ofString.value = "" →
          extractAssistantContent a
            = " ".intercalate (a.content.ofArrayOfContentParts.filterMap textOf)) := by
  refine ⟨fun h => by rw [extractSystemContent, if_pos h],
          fun h => ?_,
          fun h => by rw [extractUserContent, if_pos h],
          fun h => ?_,
          fun h => by rw [extractAssistantContent, if_pos h],
          fun h => ?_⟩
  · rw [extractSystemContent, if_neg (by simp [h]), foldl_collect_nonempty_text]
    simp
  · rw [extractUserContent, if_neg (by simp [h]), foldl_collect_ofText]
    simp
  · rw [extractAssistantContent, if_neg (by simp [h]), foldl_collect_ofText]
    simp

/-- Witness for C5's amended claim at concrete structured-part messages. -/
theorem content_extraction_amended_witness :
    extractUserContent userPartsMsg
      = " ".intercalate (userPartsMsg.content.ofArrayOfContentParts.filterMap textOf) :=
  (content_extraction_amended sysPartsMsg userPartsMsg asstPartsMsg).2.2.2.1 rfl

/-- C6: the outbound message content is the concatenation, in order and
with no separator, of the texts of exactly the text-tagged content
blocks. -/
theorem response_content_concatenation (resp : AnthropicMessage)
    (model : String) (now : Int) :
    (toOpenAIResponse resp model now).choices.map (fun c => c.message.content)
      = [String.join ((resp.content.filter (fun b => b.type == "text")).map
          (fun b => b.text))] := by
  have h := foldl_content_blocks resp.content ""
  rw [String.empty_append] at h
  simp [toOpenAIResponse]
  simpa using h

/-- C7: the finish-reason mapping is total: max_tokens maps to length,
tool_use maps to tool_calls, and every other stop reason maps to stop. -/
theorem finish_reason_total (resp : AnthropicMessage) (model : String) (now : Int) :
    (resp.stopReason = "max_tokens" →
        (toOpenAIResponse resp model now).choices.map (fun c => c.finishReason)
          = ["length"])
      ∧ (resp.stopReason = "tool_use" →
          (toOpenAIResponse resp model now).choices.map (fun c => c.finishReason)
            = ["tool_calls"])
      ∧ (resp.stopReason ≠ "max_tokens" → resp.stopReason ≠ "tool_use" →
          (toOpenAIResponse resp model now).choices.map (fun c => c.finishReason)
            = ["stop"]) := by
  refine ⟨fun h => by simp [toOpenAIResponse, h],
          fun h => by simp [toOpenAIResponse, h],
          fun h1 h2 => ?_⟩
  simp only [toOpenAIResponse, List.map_cons, List.map_nil]

/-- Witness for C7 at the normal end-of-turn response. -/
theorem finish_reason_total_witness :
    (toOpenAIResponse respEndTurn "claude-sonnet-4-5" 0).choices.map
        (fun c => c.finishReason) = ["stop"] :=
  (finish_reason_total respEndTurn "claude-sonnet-4-5" 0).2.2
    (by decide) (by decide)

/-- C8: when the backend call fails, ChatCompletion returns the error
wrapped in the backend-origin constructor, still carrying the underlying
error, produces no response, and performs exactly one backend invocation
(no retry). -/
theorem backend_error_wrapped {ε : Type}
    (backend : MessageNewParams → Except ε AnthropicMessage)
    (now : Int) (req : ChatCompletionNewParams) (e : ε)
    (h : backend (toAnthropicRequest req) = .error e) :
    ChatCompletion backend now req = (.error (.anthropicAPIError e), 1) := by
  simp [ChatCompletion, h]

/-- Witness for C8 at the always-failing backend stub. -/
theorem backend_error_wrapped_witness :
    ChatCompletion backendStub 0 reqBasic
      = (.error (.anthropicAPIError "transport failure"), 1) :=
  backend_error_wrapped backendStub 0 reqBasic "transport failure" rfl

/-- C9 fails as stated: two invocations of the response translator on the
same backend response and model disagree, because the `created` field is
stamped from the ambient wall clock (`time.Now()`), here surfaced as the
final argument. -/
theorem translation_not_pure_counterexample :
    toOpenAIResponse respEndTurn "claude-sonnet-4-5" 0
      ≠ toOpenAIResponse respEndTurn "claude-sonnet-4-5" 1 := by
  intro h
  exact absurd (congrArg OpenAIResponse.created h) (by decide)

/-- C9 amended: the request translator reads no ambient state, and the
response translator is deterministic up to the `created` timestamp: two
invocations on the same response and model agree on every field except
`created`, which equals the wall-clock instant of the invocation. -/
theorem translation_deterministic_up_to_clock (req : ChatCompletionNewParams)
    (resp : AnthropicMessage) (model : String) (n₁ n₂ : Int) :
    toAnthropicRequest req = toAnthropicRequest req
      ∧ toOpenAIResponse resp model n₁
          = { toOpenAIResponse resp model n₂ with created := n₁ }
      ∧ (toOpenAIResponse resp model n₁).created = n₁ :=
  ⟨rfl, rfl, rfl⟩

/-- C10: for a request containing a system-role message, the backend
request carries a system field exactly when the extraction of the last
system-role message is non-empty, and the carried text is that
extraction — so a later empty-content system message erases an earlier
non-empty one. -/
theorem system_field_iff_nonempty (req : ChatCompletionNewParams)
    (m : ChatCompletionSystemMessageParam)
    (h : lastSystem? req.messages = some m) :
    (toAnthropicRequest req).system
        = (if extractSystemContent m ≠ ""
           then [(⟨extractSystemContent m⟩ : TextBlockParam)] else [])
      ∧ ((toAnthropicRequest req).system ≠ [] ↔ extractSystemContent m ≠ "") := by
  have hsnd0 := foldl_processMessage_snd req.messages [] ""
  rw [h] at hsnd0
  have hsnd : (List.foldl processMessage ([], "") req.messages).2
      = extractSystemContent m := hsnd0
  have hsys : (toAnthropicRequest req).system
      = (if (List.foldl processMessage ([], "") req.messages).2 ≠ ""
         then [(⟨(List.foldl processMessage ([], "") req.messages).2⟩ : TextBlockParam)]
         else []) := rfl
  rw [hsys, hsnd]
  constructor
  · rfl
  · by_cases he : extractSystemContent m = "" <;> simp [he]

/-- Witness for C10 at the erasing request: the last system message
extracts to the empty string, so the backend request carries no system
field despite the earlier non-empty system message. -/
theorem system_field_iff_nonempty_witness :
    (toAnthropicRequest reqEraseSystem).system = [] := by
  have h := (system_field_iff_nonempty reqEraseSystem (sysMsgOf "") rfl).1
  simpa [show extractSystemContent (sysMsgOf "") = "" from rfl] using h

end SemanticRouter
